import Mathlib

/-!
Verification development for the Vulkan backend core declared in
`filament/backend/src/vulkan/VulkanContext.h`:
memory-type selection (`VulkanContext::selectMemoryType`), the dual-mode
texture ownership handle (`TexturePointer`), and the timer-query slot pool
(`VulkanTimestamps`).

Machine integers are modelled as `Nat`; a C pointer is `Option` of the
pointee (with `none` for null); a `std::shared_ptr` is likewise modelled by
the pointee it holds.  A code path that fires an assertion is modelled by
`Option` results (`none` = the assertion/fatal path was reached).
-/

namespace FilamentVk

/-- The Vulkan constant `VK_MAX_MEMORY_TYPES`: the fixed size of the
`memoryTypes` array inside `VkPhysicalDeviceMemoryProperties`. -/
def VK_MAX_MEMORY_TYPES : Nat := 32

/-- One entry of the memory-type table (`VkMemoryType`); only the
`propertyFlags` field is read by `selectMemoryType`, modelled as the `Nat`
whose bits are the property flags. -/
structure VkMemoryType where
  propertyFlags : Nat
  deriving DecidableEq

/-- `VkPhysicalDeviceMemoryProperties` as read by `selectMemoryType`:
`memoryTypes` is a fixed array of `VK_MAX_MEMORY_TYPES` entries of which the
first `memoryTypeCount` are the device-reported ones; the loop in the source
indexes it at every `i < VK_MAX_MEMORY_TYPES`, so we model it as a total
function. -/
structure VkPhysicalDeviceMemoryProperties where
  memoryTypeCount : Nat
  memoryTypes : Nat → VkMemoryType

/-- The loop body of `VulkanContext::selectMemoryType`, with fuel
`n = VK_MAX_MEMORY_TYPES - i`.  Each iteration tests `flags & 1`, then the
superset test `(propertyFlags & reqs) == reqs`, and shifts `flags` right by
one (`flags >>= 1`).  `none` models falling out of the loop into the failing
`ASSERT_POSTCONDITION`. -/
def selectLoop (memoryTypes : Nat → VkMemoryType) (reqs : Nat) :
    Nat → Nat → Nat → Option Nat
  | 0, _, _ => none
  | n + 1, flags, i =>
    if flags % 2 = 1 then
      if (memoryTypes i).propertyFlags &&& reqs = reqs then some i
      else selectLoop memoryTypes reqs n (flags / 2) (i + 1)
    else selectLoop memoryTypes reqs n (flags / 2) (i + 1)

/-- `VulkanContext::selectMemoryType`, split out as the `Option`-valued core:
`some i` is the `return i` inside the loop, `none` is the fall-through to the
failing `ASSERT_POSTCONDITION`. -/
def selectMemoryTypeOpt (m : VkPhysicalDeviceMemoryProperties)
    (flags reqs : Nat) : Option Nat :=
  selectLoop m.memoryTypes reqs VK_MAX_MEMORY_TYPES flags 0

/-- `VulkanContext::selectMemoryType` as the `uint32_t`-returning function of
the source: on the fatal path it returns `(uint32_t) ~0ul = 0xFFFFFFFF`. -/
def selectMemoryType (m : VkPhysicalDeviceMemoryProperties)
    (flags reqs : Nat) : Nat :=
  (selectMemoryTypeOpt m flags reqs).getD (2 ^ 32 - 1)

/-- Index `i` is eligible for `(flags, reqs)`: its bit is set in the type
bitmask and its property-flag set is a superset of `reqs`. -/
def eligible (m : VkPhysicalDeviceMemoryProperties) (flags reqs i : Nat) :
    Prop :=
  Nat.testBit flags i = true ∧ (m.memoryTypes i).propertyFlags &&& reqs = reqs

instance (m : VkPhysicalDeviceMemoryProperties) (flags reqs i : Nat) :
    Decidable (eligible m flags reqs i) := by
  unfold eligible; infer_instance

/-- Relative-index eligibility used to reason about the loop: position `k`
of the remaining scan that started at absolute index `i` with the shifted
bitmask `flags`. -/
def eligFrom (memoryTypes : Nat → VkMemoryType) (reqs flags i k : Nat) :
    Prop :=
  Nat.testBit flags k = true ∧
    (memoryTypes (i + k)).propertyFlags &&& reqs = reqs

lemma eligFrom_shift (memoryTypes : Nat → VkMemoryType) (reqs flags i k : Nat) :
    eligFrom memoryTypes reqs (flags / 2) (i + 1) k ↔
      eligFrom memoryTypes reqs flags i (k + 1) := by
  unfold eligFrom
  rw [Nat.testBit_div_two]
  have h : i + 1 + k = i + (k + 1) := by omega
  rw [h]

lemma eligFrom_zero (memoryTypes : Nat → VkMemoryType) (reqs flags i : Nat) :
    eligFrom memoryTypes reqs flags i 0 ↔
      (flags % 2 = 1 ∧ (memoryTypes i).propertyFlags &&& reqs = reqs) := by
  unfold eligFrom
  rw [Nat.testBit_zero]
  simp

/-- Soundness and minimality of the loop: a successful return is the least
eligible offset within the scanned window. -/
lemma selectLoop_some_spec (memoryTypes : Nat → VkMemoryType) (reqs : Nat) :
    ∀ n flags i r, selectLoop memoryTypes reqs n flags i = some r →
      ∃ k, k < n ∧ r = i + k ∧ eligFrom memoryTypes reqs flags i k ∧
        ∀ j, j < k → ¬ eligFrom memoryTypes reqs flags i j := by
  intro n
  induction n with
  | zero => intro flags i r h; simp [selectLoop] at h
  | succ n ih =>
    intro flags i r h
    unfold selectLoop at h
    by_cases hb : flags % 2 = 1
    · rw [if_pos hb] at h
      by_cases hs : (memoryTypes i).propertyFlags &&& reqs = reqs
      · rw [if_pos hs] at h
        refine ⟨0, Nat.succ_pos n, ?_, ?_, ?_⟩
        · simpa using (Option.some_inj.mp h).symm
        · exact (eligFrom_zero memoryTypes reqs flags i).mpr ⟨hb, hs⟩
        · intro j hj; omega
      · rw [if_neg hs] at h
        obtain ⟨k, hk, hr, he, hmin⟩ := ih (flags / 2) (i + 1) r h
        refine ⟨k + 1, by omega, by omega, ?_, ?_⟩
        · exact (eligFrom_shift memoryTypes reqs flags i k).mp he
        · intro j hj
          cases j with
          | zero =>
            rw [eligFrom_zero]
            rintro ⟨_, h2⟩; exact hs h2
          | succ j' =>
            rw [← eligFrom_shift]
            exact hmin j' (by omega)
    · rw [if_neg hb] at h
      obtain ⟨k, hk, hr, he, hmin⟩ := ih (flags / 2) (i + 1) r h
      refine ⟨k + 1, by omega, by omega, ?_, ?_⟩
      · exact (eligFrom_shift memoryTypes reqs flags i k).mp he
      · intro j hj
        cases j with
        | zero =>
          rw [eligFrom_zero]
          rintro ⟨h1, _⟩; exact hb h1
        | succ j' =>
          rw [← eligFrom_shift]
          exact hmin j' (by omega)

/-- Completeness of the loop: if some offset within the window is eligible,
the loop succeeds. -/
lemma selectLoop_isSome (memoryTypes : Nat → VkMemoryType) (reqs : Nat) :
    ∀ n flags i, (∃ k, k < n ∧ eligFrom memoryTypes reqs flags i k) →
      (selectLoop memoryTypes reqs n flags i).isSome = true := by
  intro n
  induction n with
  | zero => rintro flags i ⟨k, hk, _⟩; omega
  | succ n ih =>
    rintro flags i ⟨k, hk, he⟩
    unfold selectLoop
    by_cases hb : flags % 2 = 1
    · rw [if_pos hb]
      by_cases hs : (memoryTypes i).propertyFlags &&& reqs = reqs
      · rw [if_pos hs]; rfl
      · rw [if_neg hs]
        apply ih
        cases k with
        | zero =>
          exact absurd ((eligFrom_zero memoryTypes reqs flags i).mp he).2 hs
        | succ k' =>
          refine ⟨k', by omega, ?_⟩
          rw [eligFrom_shift]
          exact he
    · rw [if_neg hb]
      apply ih
      cases k with
      | zero =>
        exact absurd ((eligFrom_zero memoryTypes reqs flags i).mp he).1 hb
      | succ k' =>
        refine ⟨k', by omega, ?_⟩
        rw [eligFrom_shift]
        exact he

lemma eligFrom_base (m : VkPhysicalDeviceMemoryProperties)
    (reqs flags k : Nat) :
    eligFrom m.memoryTypes reqs flags 0 k ↔ eligible m flags reqs k := by
  unfold eligFrom eligible
  rw [Nat.zero_add]

/-- Top-level success characterization of `selectMemoryTypeOpt`. -/
lemma selectMemoryTypeOpt_some_spec (m : VkPhysicalDeviceMemoryProperties)
    (flags reqs r : Nat) (h : selectMemoryTypeOpt m flags reqs = some r) :
    r < VK_MAX_MEMORY_TYPES ∧ eligible m flags reqs r ∧
      ∀ j, j < r → ¬ eligible m flags reqs j := by
  obtain ⟨k, hk, hr, he, hmin⟩ :=
    selectLoop_some_spec m.memoryTypes reqs VK_MAX_MEMORY_TYPES flags 0 r h
  rw [Nat.zero_add] at hr
  subst hr
  refine ⟨hk, (eligFrom_base m reqs flags _).mp he, ?_⟩
  intro j hj hje
  exact hmin j hj ((eligFrom_base m reqs flags j).mpr hje)

/-- Top-level completeness of `selectMemoryTypeOpt`. -/
lemma selectMemoryTypeOpt_isSome (m : VkPhysicalDeviceMemoryProperties)
    (flags reqs : Nat)
    (h : ∃ i, i < VK_MAX_MEMORY_TYPES ∧ eligible m flags reqs i) :
    (selectMemoryTypeOpt m flags reqs).isSome = true := by
  obtain ⟨i, hi, he⟩ := h
  exact selectLoop_isSome m.memoryTypes reqs VK_MAX_MEMORY_TYPES flags 0
    ⟨i, hi, (eligFrom_base m reqs flags i).mpr he⟩

/-- The fatal path is taken exactly when no index below
`VK_MAX_MEMORY_TYPES` is eligible. -/
lemma selectMemoryTypeOpt_none_iff (m : VkPhysicalDeviceMemoryProperties)
    (flags reqs : Nat) :
    selectMemoryTypeOpt m flags reqs = none ↔
      ∀ i, i < VK_MAX_MEMORY_TYPES → ¬ eligible m flags reqs i := by
  constructor
  · intro h i hi he
    have := selectMemoryTypeOpt_isSome m flags reqs ⟨i, hi, he⟩
    rw [h] at this
    simp at this
  · intro h
    cases hopt : selectMemoryTypeOpt m flags reqs with
    | none => rfl
    | some r =>
      obtain ⟨hr, he, _⟩ := selectMemoryTypeOpt_some_spec m flags reqs r hopt
      exact absurd he (h r hr)

/-- The concrete table of the spec's example: flags A = 1 at index 0 and
A ∪ B = 3 at indices 2 and 5, all other entries empty. -/
def exampleTable : VkPhysicalDeviceMemoryProperties where
  memoryTypeCount := 6
  memoryTypes := fun i =>
    if i = 0 then ⟨1⟩ else if i = 2 then ⟨3⟩ else if i = 5 then ⟨3⟩ else ⟨0⟩

/-- A one-entry table whose single reported entry has empty property flags;
the remaining 31 array slots (beyond `memoryTypeCount`) are also empty, as
with a zero-initialized `VkPhysicalDeviceMemoryProperties`. -/
def smallTable : VkPhysicalDeviceMemoryProperties where
  memoryTypeCount := 1
  memoryTypes := fun _ => ⟨0⟩

/-! ## TexturePointer -/

/-- The pointee type of the handle; stands for `VulkanTexture` objects, with
`id` standing for object identity. -/
structure VulkanTexture where
  id : Nat
  deriving DecidableEq

/-- The member `std::variant<VulkanTexture*, std::shared_ptr<VulkanTexture>>`.
Alternative 0 holds a raw (non-owning) pointer, alternative 1 a shared
(owning) pointer; both pointers are `Option` with `none` for null. -/
inductive TextureVariant where
  | raw (p : Option VulkanTexture)
  | sharedRef (s : Option VulkanTexture)
  deriving DecidableEq

/-- `std::variant::index()`: 0 for the raw alternative, 1 for the shared
alternative. -/
def TextureVariant.index : TextureVariant → Nat
  | .raw _ => 0
  | .sharedRef _ => 1

/-- `TexturePointer`: the dual-mode ownership handle. -/
structure TexturePointer where
  mTexture : TextureVariant
  deriving DecidableEq

namespace TexturePointer

/-- `TexturePointer() = default`: the variant default-constructs alternative
0, value-initializing the raw pointer to null. -/
def mkDefault : TexturePointer := ⟨.raw none⟩

/-- `explicit TexturePointer(VulkanTexture* tex)`. -/
def ofRawTex (tex : Option VulkanTexture) : TexturePointer := ⟨.raw tex⟩

/-- `explicit TexturePointer(std::shared_ptr<VulkanTexture> tex)`. -/
def ofSharedTex (tex : Option VulkanTexture) : TexturePointer :=
  ⟨.sharedRef tex⟩

/-- `operator=(VulkanTexture* tex)`: assigns the variant to alternative 0. -/
def assignRaw (_t : TexturePointer) (tex : Option VulkanTexture) :
    TexturePointer := ⟨.raw tex⟩

/-- `operator=(std::shared_ptr<VulkanTexture> tex)`: assigns the variant to
alternative 1. -/
def assignShared (_t : TexturePointer) (tex : Option VulkanTexture) :
    TexturePointer := ⟨.sharedRef tex⟩

/-- `explicit operator VulkanTexture*() const`. -/
def toRawPtr (t : TexturePointer) : Option VulkanTexture :=
  match t.mTexture with
  | .raw p => p
  | .sharedRef s => s

/-- `explicit operator VulkanTexture const*() const` (same body as the
non-const pointer conversion in the source). -/
def toConstRawPtr (t : TexturePointer) : Option VulkanTexture :=
  match t.mTexture with
  | .raw p => p
  | .sharedRef s => s

/-- `explicit operator std::shared_ptr<VulkanTexture>() const`:
`assert_invariant(mTexture.index() == 1)` then `std::get<1>`.  `none` models
the assertion firing on a non-owning handle; `some s` is the returned shared
pointer. -/
def toSharedPtr (t : TexturePointer) : Option (Option VulkanTexture) :=
  match t.mTexture with
  | .raw _ => none
  | .sharedRef s => some s

/-- `operator bool() const`: null test of whichever alternative is active. -/
def toBool (t : TexturePointer) : Bool :=
  match t.mTexture with
  | .raw p => p.isSome
  | .sharedRef s => s.isSome

/-- `VulkanTexture* operator->()`. -/
def arrow (t : TexturePointer) : Option VulkanTexture :=
  match t.mTexture with
  | .raw p => p
  | .sharedRef s => s

/-- `VulkanTexture const* operator->() const` (same body as the non-const
overload in the source). -/
def arrowConst (t : TexturePointer) : Option VulkanTexture :=
  match t.mTexture with
  | .raw p => p
  | .sharedRef s => s

end TexturePointer

/-! ## VulkanTimestamps

The pool's method bodies are not part of the given sources (only the class
declaration in `VulkanContext.h` is), so the allocate/free operations are
modelled from the spec.  The presence bitmap `mUsed : utils::bitset32` is
modelled as a function `Nat → Bool` over the 32 slot indices. -/

/-- Width of the presence bitmap `utils::bitset32`: 32 slots. -/
def TIMESTAMP_SLOT_COUNT : Nat := 32

/-- Modelled from the spec: the empty presence bitmap of a freshly created
pool — no slot is in use. -/
def emptyUsed : Nat → Bool := fun _ => false

/-- Modelled from the spec: the scan inside `VulkanTimestamps::getNextQuery`
— find the lowest index `i` such that slots `i` and `i + 1` are both free,
scanning from `i = start` with `fuel` candidate bases remaining. -/
def scanPair (used : Nat → Bool) : Nat → Nat → Option Nat
  | 0, _ => none
  | n + 1, i => if !used i && !used (i + 1) then some i
                else scanPair used n (i + 1)

/-- Modelled from the spec: `VulkanTimestamps::getNextQuery` (state-passing;
the method body is not in the given sources).  Scans the presence bitmap for
the lowest index `i` with slots `i` and `i + 1` both free, marks both used,
and returns the pair together with the updated bitmap; returns `none` (the
resource-exhaustion error surfaced to the caller) if no pair is free. -/
def getNextQuery (used : Nat → Bool) :
    Option ((Nat × Nat) × (Nat → Bool)) :=
  match scanPair used (TIMESTAMP_SLOT_COUNT - 1) 0 with
  | none => none
  | some a => some ((a, a + 1),
      fun i => if i == a || i == a + 1 then true else used i)

/-- Modelled from the spec: `VulkanTimestamps::clearQuery` (the method body
is not in the given sources) — clears both bits of the pair based at
`queryIndex`. -/
def clearQuery (used : Nat → Bool) (queryIndex : Nat) : Nat → Bool :=
  fun i => if i == queryIndex || i == queryIndex + 1 then false else used i

/-- Run `n` successive allocations, collecting the returned pairs and the
final bitmap; stops early if an allocation fails. -/
def allocMany (used : Nat → Bool) : Nat → List (Nat × Nat) × (Nat → Bool)
  | 0 => ([], used)
  | n + 1 =>
    match getNextQuery used with
    | none => ([], used)
    | some (p, u) =>
      let r := allocMany u n
      (p :: r.1, r.2)

/-- Soundness and minimality of the pair scan: a successful scan returns the
lowest base index of a fully free adjacent pair in the scanned window. -/
lemma scanPair_some_spec (used : Nat → Bool) :
    ∀ n i a, scanPair used n i = some a →
      i ≤ a ∧ a < i + n ∧ used a = false ∧ used (a + 1) = false ∧
        ∀ j, i ≤ j → j < a → ¬(used j = false ∧ used (j + 1) = false) := by
  intro n
  induction n with
  | zero => intro i a h; simp [scanPair] at h
  | succ n ih =>
    intro i a h
    unfold scanPair at h
    by_cases hc : (!used i && !used (i + 1)) = true
    · rw [if_pos hc] at h
      obtain rfl : i = a := Option.some_inj.mp h
      simp only [Bool.and_eq_true, Bool.not_eq_true'] at hc
      exact ⟨Nat.le_refl _, by omega, hc.1, hc.2, fun j h1 h2 _ => by omega⟩
    · rw [if_neg hc] at h
      obtain ⟨h1, h2, h3, h4, h5⟩ := ih (i + 1) a h
      refine ⟨by omega, by omega, h3, h4, ?_⟩
      intro j hij hja hcontr
      rcases Nat.eq_or_lt_of_le hij with rfl | hlt
      · simp only [Bool.and_eq_true, Bool.not_eq_true'] at hc
        exact hc ⟨hcontr.1, hcontr.2⟩
      · exact h5 j hlt hja hcontr

/-- Completeness of the pair scan: if a fully free adjacent pair exists in
the window, the scan succeeds. -/
lemma scanPair_isSome (used : Nat → Bool) :
    ∀ n i k, i ≤ k → k < i + n → used k = false → used (k + 1) = false →
      (scanPair used n i).isSome = true := by
  intro n
  induction n with
  | zero => intro i k h1 h2; omega
  | succ n ih =>
    intro i k h1 h2 h3 h4
    unfold scanPair
    by_cases hc : (!used i && !used (i + 1)) = true
    · rw [if_pos hc]; rfl
    · rw [if_neg hc]
      rcases Nat.eq_or_lt_of_le h1 with rfl | hlt
      · simp only [Bool.and_eq_true, Bool.not_eq_true'] at hc
        exact absurd ⟨h3, h4⟩ hc
      · exact ih (i + 1) k hlt (by omega) h3 h4

/-! ## Claim theorems -/

/-- Claim C1: for every memory-type table, typeBitmask and requiredFlags, if
some index is eligible (bit set in the bitmask and property flags a superset
of the requirements), `selectMemoryType` returns the least eligible index;
in particular, on the table with flags A at 0 and A ∪ B at 2 and 5, bitmask
admitting {0, 2, 5} and requiredFlags A ∪ B, it returns 2. -/
theorem claim1_select_least_eligible (m : VkPhysicalDeviceMemoryProperties)
    (flags reqs : Nat)
    (h : ∃ i, i < VK_MAX_MEMORY_TYPES ∧ eligible m flags reqs i) :
    (eligible m flags reqs (selectMemoryType m flags reqs) ∧
      ∀ j, j < selectMemoryType m flags reqs → ¬ eligible m flags reqs j) ∧
    selectMemoryType exampleTable 37 3 = 2 := by
  refine ⟨?_, by decide⟩
  have hsome := selectMemoryTypeOpt_isSome m flags reqs h
  cases hopt : selectMemoryTypeOpt m flags reqs with
  | none => rw [hopt] at hsome; simp at hsome
  | some r =>
    obtain ⟨_, he, hmin⟩ := selectMemoryTypeOpt_some_spec m flags reqs r hopt
    have hval : selectMemoryType m flags reqs = r := by
      unfold selectMemoryType; rw [hopt]; rfl
    rw [hval]
    exact ⟨he, hmin⟩

/-- Witness for C1 at the spec's concrete example. -/
theorem claim1_select_least_eligible_witness :
    (eligible exampleTable 37 3 (selectMemoryType exampleTable 37 3) ∧
      ∀ j, j < selectMemoryType exampleTable 37 3 →
        ¬ eligible exampleTable 37 3 j) ∧
    selectMemoryType exampleTable 37 3 = 2 :=
  claim1_select_least_eligible exampleTable 37 3 ⟨2, by decide, by decide⟩

/-- Claim C2: `selectMemoryType` reaches its fatal path (the failing
`ASSERT_POSTCONDITION`) iff no index is eligible, and a successful return is
always an eligible index — never a silently wrong one. -/
theorem claim2_fatal_iff_no_eligible (m : VkPhysicalDeviceMemoryProperties)
    (flags reqs : Nat) :
    (selectMemoryTypeOpt m flags reqs = none ↔
      ∀ i, i < VK_MAX_MEMORY_TYPES → ¬ eligible m flags reqs i) ∧
    ∀ r, selectMemoryTypeOpt m flags reqs = some r →
      eligible m flags reqs r := by
  refine ⟨selectMemoryTypeOpt_none_iff m flags reqs, ?_⟩
  intro r hr
  exact (selectMemoryTypeOpt_some_spec m flags reqs r hr).2.1

/-- Witness for C2: on the example table the successful return index 2 is
eligible, and on the empty bitmask the fatal path is taken. -/
theorem claim2_fatal_iff_no_eligible_witness :
    eligible exampleTable 37 3 2 ∧ selectMemoryTypeOpt exampleTable 0 3 = none :=
  ⟨(claim2_fatal_iff_no_eligible exampleTable 37 3).2 2 (by decide),
    (claim2_fatal_iff_no_eligible exampleTable 0 3).1.mpr (by decide)⟩

/-- Counterexample to C3 as stated: on a table with `memoryTypeCount = 1`
(all property-flag entries empty), typeBitmask 2 and requiredFlags 0, the
scan succeeds with index 1, which is not below `memoryTypeCount` — the loop
in the source iterates over all `VK_MAX_MEMORY_TYPES` array slots and never
consults `memoryTypeCount`. -/
theorem claim3_counterexample :
    selectMemoryTypeOpt smallTable 2 0 = some 1 ∧
    selectMemoryType smallTable 2 0 = 1 ∧
    ¬ (1 < smallTable.memoryTypeCount) := by decide

/-- Claim C3 (amended): every index returned on the success path is strictly
below `VK_MAX_MEMORY_TYPES`, the fixed hardware maximum; it is below
`memoryTypeCount` whenever every bit set in the type bitmask is below
`memoryTypeCount` (as is the case for bitmasks reported by the device). -/
theorem claim3_amended_result_below_max (m : VkPhysicalDeviceMemoryProperties)
    (flags reqs r : Nat) (h : selectMemoryTypeOpt m flags reqs = some r) :
    r < VK_MAX_MEMORY_TYPES ∧
    ((∀ i, Nat.testBit flags i = true → i < m.memoryTypeCount) →
      r < m.memoryTypeCount) := by
  obtain ⟨hr, he, _⟩ := selectMemoryTypeOpt_some_spec m flags reqs r h
  exact ⟨hr, fun hb => hb r he.1⟩

/-- Witness for the amended C3 at the spec's concrete example. -/
theorem claim3_amended_result_below_max_witness :
    2 < VK_MAX_MEMORY_TYPES ∧
    ((∀ i, Nat.testBit 37 i = true → i < exampleTable.memoryTypeCount) →
      2 < exampleTable.memoryTypeCount) :=
  claim3_amended_result_below_max exampleTable 37 3 2 (by decide)

/-- Claim C8: when no index is eligible, `selectMemoryType` returns the
sentinel `(uint32_t) ~0ul = 0xFFFFFFFF = 4294967295`, which differs from
every valid memory-type index (all of which are below
`VK_MAX_MEMORY_TYPES`). -/
theorem claim8_sentinel_on_failure (m : VkPhysicalDeviceMemoryProperties)
    (flags reqs : Nat)
    (h : ∀ i, i < VK_MAX_MEMORY_TYPES → ¬ eligible m flags reqs i) :
    selectMemoryType m flags reqs = 4294967295 ∧
    ∀ i, i < VK_MAX_MEMORY_TYPES → selectMemoryType m flags reqs ≠ i := by
  have hnone := (selectMemoryTypeOpt_none_iff m flags reqs).mpr h
  have hval : selectMemoryType m flags reqs = 4294967295 := by
    unfold selectMemoryType; rw [hnone]; rfl
  refine ⟨hval, ?_⟩
  intro i hi
  rw [hval]
  unfold VK_MAX_MEMORY_TYPES at hi
  omega

/-- Witness for C8: a table with no eligible entry for requiredFlags 7. -/
theorem claim8_sentinel_on_failure_witness :
    selectMemoryType smallTable 2 7 = 4294967295 ∧
    ∀ i, i < VK_MAX_MEMORY_TYPES → selectMemoryType smallTable 2 7 ≠ i :=
  claim8_sentinel_on_failure smallTable 2 7 (by decide)

/-- Claim C4: conversion of a `TexturePointer` to a shared-owning reference
succeeds (does not trip `assert_invariant(mTexture.index() == 1)`) iff the
handle is in owning mode (variant alternative 1, i.e. constructed or last
assigned from a shared reference); on a non-owning handle the assertion
fires, and on an owning handle the same underlying shared reference is
returned. -/
theorem claim4_shared_conversion_mode :
    (∀ t : TexturePointer,
      (TexturePointer.toSharedPtr t).isSome = true ↔
        TextureVariant.index t.mTexture = 1) ∧
    (∀ s, TexturePointer.toSharedPtr (TexturePointer.ofSharedTex s) = some s) ∧
    (∀ t s, TexturePointer.toSharedPtr (TexturePointer.assignShared t s) =
      some s) ∧
    (∀ p, TexturePointer.toSharedPtr (TexturePointer.ofRawTex p) = none) := by
  refine ⟨?_, fun s => rfl, fun t s => rfl, fun p => rfl⟩
  intro t
  obtain ⟨v⟩ := t
  cases v <;> simp [TexturePointer.toSharedPtr, TextureVariant.index]

/-- Witness for C4: an owning handle converts to the shared reference it was
built from, a non-owning one hits the assertion. -/
theorem claim4_shared_conversion_mode_witness :
    TexturePointer.toSharedPtr (TexturePointer.ofSharedTex (some ⟨7⟩)) =
      some (some ⟨7⟩) ∧
    TexturePointer.toSharedPtr (TexturePointer.ofRawTex (some ⟨7⟩)) = none :=
  ⟨claim4_shared_conversion_mode.2.1 (some ⟨7⟩),
    claim4_shared_conversion_mode.2.2.2 (some ⟨7⟩)⟩

/-- Claim C5: a non-owning handle on pointer `p` and an owning handle on a
shared reference to `p` are observationally equal under both `operator->`
overloads, both raw-pointer conversions and the boolean truthiness check. -/
theorem claim5_modes_observationally_equal (p : Option VulkanTexture) :
    TexturePointer.arrow (TexturePointer.ofRawTex p) =
        TexturePointer.arrow (TexturePointer.ofSharedTex p) ∧
    TexturePointer.arrowConst (TexturePointer.ofRawTex p) =
        TexturePointer.arrowConst (TexturePointer.ofSharedTex p) ∧
    TexturePointer.toRawPtr (TexturePointer.ofRawTex p) =
        TexturePointer.toRawPtr (TexturePointer.ofSharedTex p) ∧
    TexturePointer.toConstRawPtr (TexturePointer.ofRawTex p) =
        TexturePointer.toConstRawPtr (TexturePointer.ofSharedTex p) ∧
    TexturePointer.toBool (TexturePointer.ofRawTex p) =
        TexturePointer.toBool (TexturePointer.ofSharedTex p) :=
  ⟨rfl, rfl, rfl, rfl, rfl⟩

/-- Claim C9: ownership mode is determined solely by the most recent
construction or assignment — assigning a raw pointer puts any handle in
non-owning mode (so the shared conversion asserts), assigning a shared
reference puts any handle in owning mode. -/
theorem claim9_assignment_sets_mode (t : TexturePointer)
    (p s : Option VulkanTexture) :
    TextureVariant.index (TexturePointer.assignRaw t p).mTexture = 0 ∧
    TexturePointer.toSharedPtr (TexturePointer.assignRaw t p) = none ∧
    TextureVariant.index (TexturePointer.assignShared t s).mTexture = 1 ∧
    TexturePointer.toSharedPtr (TexturePointer.assignShared t s) = some s :=
  ⟨rfl, rfl, rfl, rfl⟩

/-- Claim C10: a default-constructed `TexturePointer` is a non-owning null
handle — falsy, null raw-pointer conversions, and the shared conversion
trips the assertion. -/
theorem claim10_default_nonowning_null :
    TexturePointer.mkDefault.mTexture = TextureVariant.raw none ∧
    TextureVariant.index TexturePointer.mkDefault.mTexture = 0 ∧
    TexturePointer.toBool TexturePointer.mkDefault = false ∧
    TexturePointer.toRawPtr TexturePointer.mkDefault = none ∧
    TexturePointer.toConstRawPtr TexturePointer.mkDefault = none ∧
    TexturePointer.toSharedPtr TexturePointer.mkDefault = none :=
  ⟨rfl, rfl, rfl, rfl, rfl, rfl⟩

/-- Claim C6: with the 32-bit presence bitmap (16 pairs), 16 successive
allocations from the empty pool all succeed with pairwise non-overlapping
slot pairs, and the 17th allocation fails with the exhaustion error. -/
theorem claim6_capacity_sixteen_pairs :
    (allocMany emptyUsed 16).1 =
      [(0, 1), (2, 3), (4, 5), (6, 7), (8, 9), (10, 11), (12, 13), (14, 15),
        (16, 17), (18, 19), (20, 21), (22, 23), (24, 25), (26, 27), (28, 29),
        (30, 31)] ∧
    (allocMany emptyUsed 16).1.length = 16 ∧
    ((allocMany emptyUsed 16).1.flatMap (fun q => [q.1, q.2])).Nodup ∧
    getNextQuery (allocMany emptyUsed 16).2 = none := by
  refine ⟨by decide, by decide, by decide, ?_⟩
  rfl

/-- Claim C7: a successful `getNextQuery` returns the lowest-indexed free
adjacent pair, both slots previously free (never slots held by a live
allocation), marks exactly those two slots used; `clearQuery` clears both
bits of the pair, so allocate–free–allocate returns the same pair. -/
theorem claim7_lowest_pair_roundtrip (used : Nat → Bool) (a b : Nat)
    (u : Nat → Bool) (h : getNextQuery used = some ((a, b), u)) :
    b = a + 1 ∧ a + 1 < TIMESTAMP_SLOT_COUNT ∧
    used a = false ∧ used (a + 1) = false ∧
    (∀ j, j < a → ¬(used j = false ∧ used (j + 1) = false)) ∧
    u a = true ∧ u (a + 1) = true ∧
    (∀ i, i ≠ a → i ≠ a + 1 → u i = used i) ∧
    clearQuery u a = used ∧
    getNextQuery (clearQuery u a) = some ((a, b), u) := by
  unfold getNextQuery at h
  cases hscan : scanPair used (TIMESTAMP_SLOT_COUNT - 1) 0 with
  | none => rw [hscan] at h; exact absurd h (by simp)
  | some c =>
    rw [hscan] at h
    simp only [Option.some.injEq, Prod.mk.injEq] at h
    obtain ⟨⟨ha, hb⟩, hu⟩ := h
    subst ha
    subst hb
    subst hu
    obtain ⟨-, hlt, hfree, hfree1, hmin⟩ :=
      scanPair_some_spec used (TIMESTAMP_SLOT_COUNT - 1) 0 c hscan
    have hclear : clearQuery
        (fun i => if i == c || i == c + 1 then true else used i) c = used := by
      funext i
      unfold clearQuery
      by_cases hic : i = c
      · subst hic; simp [hfree]
      · by_cases hic1 : i = c + 1
        · subst hic1; simp [hfree1]
        · simp [hic, hic1]
    refine ⟨rfl, by unfold TIMESTAMP_SLOT_COUNT at hlt ⊢; omega,
      hfree, hfree1, ?_, by simp, by simp, ?_, hclear, ?_⟩
    · intro j hj; exact hmin j (Nat.zero_le j) hj
    · intro i hic hic1; simp [hic, hic1]
    · rw [hclear]
      unfold getNextQuery
      rw [hscan]

/-- Witness for C7 at the empty pool: the first allocation is the pair
(0, 1), both slots were free, and freeing the pair restores the empty
bitmap. -/
theorem claim7_lowest_pair_roundtrip_witness :
    emptyUsed 0 = false ∧ emptyUsed (0 + 1) = false ∧
    clearQuery (fun i => if i == 0 || i == 0 + 1 then true else emptyUsed i) 0 =
      emptyUsed :=
  have h := claim7_lowest_pair_roundtrip emptyUsed 0 1
    (fun i => if i == 0 || i == 0 + 1 then true else emptyUsed i) rfl
  ⟨h.2.2.1, h.2.2.2.1, h.2.2.2.2.2.2.2.2.1⟩

end FilamentVk
